import Mathlib

/-!
# Verification of the cable CSV-to-XML extraction core (`csvToXML.py`)

Shallow embedding of the record-level parsing core of `XMLCablesDocument`:
`parseCableMessageText`, `parseCSVLine` and the record loop of `parseCSVFile`.

Python strings are Lean `String`s (processed as `List Char`, ASCII-faithful);
Python's fallible operations (`time.strptime`, regex matches) are modelled as
`Option`-returning functions; the regexes of the source are hand-compiled into
deterministic backtracking parsers that enumerate candidate lengths in exactly
the order Python's `re` engine tries them (greedy: longest first; lazy:
shortest first).  The XML tree the code builds is modelled by plain structures;
`print` warnings are collected into a list in emission order.
-/

namespace CableParsing

/-! ## Character classes (Python `re`, ASCII range) -/

/-- Python `\s`: the six ASCII whitespace characters. -/
def isSpaceChar (c : Char) : Bool :=
  c = ' ' || c = '\t' || c = '\n' || c = '\r' || c = '\x0b' || c = '\x0c'

/-- Python `\w` (ASCII): letters, digits and underscore. -/
def isWordChar (c : Char) : Bool :=
  c.isAlpha || c.isDigit || c = '_'

/-- Python `[\w\s]`. -/
def isWordOrSpace (c : Char) : Bool :=
  isWordChar c || isSpaceChar c

/-- Python `.` (no DOTALL): any character except a line feed. -/
def isDotChar (c : Char) : Bool :=
  c ≠ '\n'

/-- Python `[\r\n]`. -/
def isCRLF (c : Char) : Bool :=
  c = '\r' || c = '\n'

/-! ## Python string primitives -/

/-- Python `str.strip()` on the ASCII whitespace set. -/
def pyStrip (s : String) : String :=
  String.mk (((s.toList.dropWhile isSpaceChar).reverse.dropWhile isSpaceChar).reverse)

/-- Python `str.split(sep)` for a one-character separator: `"".split(sep)`
gives `[""]`, otherwise the maximal split with empty pieces kept. -/
def pySplit (sep : Char) : List Char → List (List Char)
  | [] => [[]]
  | c :: rest =>
    let r := pySplit sep rest
    if c = sep then [] :: r
    else
      match r with
      | h :: t => (c :: h) :: t
      | [] => [[c]]

/-- Splitting never returns an empty list of pieces. -/
theorem pySplit_ne_nil (sep : Char) (l : List Char) : pySplit sep l ≠ [] := by
  cases l with
  | nil => simp [pySplit]
  | cons c rest =>
    simp only [pySplit]
    split
    · simp
    · split
      next h => simp
      next h => simp

/-- Python `str.split` lifted to `String`. -/
def pySplitStr (sep : Char) (s : String) : List String :=
  (pySplit sep s.toList).map String.mk

/-- Hexadecimal digit (lower case), for `repr` escapes. -/
def hexDigit (n : Nat) : Char :=
  if n < 10 then Char.ofNat ('0'.toNat + n) else Char.ofNat ('a'.toNat + (n - 10))

/-- Escape of one character inside a Python `repr` of a string, given the
chosen quote character. -/
def pyReprChar (quote : Char) (c : Char) : List Char :=
  if c = '\\' then ['\\', '\\']
  else if c = quote then ['\\', quote]
  else if c = '\n' then ['\\', 'n']
  else if c = '\r' then ['\\', 'r']
  else if c = '\t' then ['\\', 't']
  else if c.toNat < 0x20 || c.toNat = 0x7f then
    ['\\', 'x', hexDigit (c.toNat / 16), hexDigit (c.toNat % 16)]
  else [c]

/-- Python `repr` of a string (ASCII contents): single quotes unless the
string holds a single quote and no double quote. -/
def pyReprStr (s : String) : String :=
  let sq := Char.ofNat 39
  let dq := Char.ofNat 34
  let quote := if s.toList.contains sq && !(s.toList.contains dq) then dq else sq
  String.mk (quote :: (s.toList.flatMap (pyReprChar quote) ++ [quote]))

/-! ## Timestamp parser: `time.strptime(s, "%m/%d/%Y %H:%M")`

Hand-compilation of the regex CPython's `_strptime` builds for that format:
`(1[0-2]|0[1-9]|[1-9]) / (3[01]|[12]\d|0[1-9]|[1-9]) / \d{4} \s+
(2[0-3]|[0-1]\d|\d) : ([0-5]\d|\d)` with the whole input consumed, followed
by the `datetime.date(year, month, day)` construction `_strptime` performs,
which rejects day-out-of-range dates and year 0.  For every alternation the
two-digit branch is tried first; a failing longer branch can never be rescued
by a shorter one (the dropped character is a digit, never the following
literal), so the if-chains below are exact. -/

def digitVal (c : Char) : Nat := c.toNat - '0'.toNat

/-- Format directive `%m`: `1[0-2]|0[1-9]|[1-9]`. -/
def matchMonth : List Char → Option (Nat × List Char)
  | '1' :: c :: rest =>
    if '0' ≤ c && c ≤ '2' then some (10 + digitVal c, rest)
    else some (1, c :: rest)
  | c :: rest =>
    if '1' ≤ c && c ≤ '9' then some (digitVal c, rest) else none
  | [] => none

/-- Format directive `%d`: `3[01]|[12]\d|0[1-9]|[1-9]`. -/
def matchDay : List Char → Option (Nat × List Char)
  | '3' :: c :: rest =>
    if c = '0' || c = '1' then some (30 + digitVal c, rest)
    else some (3, c :: rest)
  | c1 :: c2 :: rest =>
    if (c1 = '1' || c1 = '2') && c2.isDigit then
      some (digitVal c1 * 10 + digitVal c2, rest)
    else if c1 = '0' && ('1' ≤ c2 && c2 ≤ '9') then some (digitVal c2, rest)
    else if '1' ≤ c1 && c1 ≤ '9' then some (digitVal c1, c2 :: rest)
    else none
  | [c] => if '1' ≤ c && c ≤ '9' then some (digitVal c, []) else none
  | [] => none

/-- Format directive `%H`: `2[0-3]|[0-1]\d|\d`. -/
def matchHour : List Char → Option (Nat × List Char)
  | '2' :: c :: rest =>
    if '0' ≤ c && c ≤ '3' then some (20 + digitVal c, rest)
    else some (2, c :: rest)
  | c1 :: c2 :: rest =>
    if (c1 = '0' || c1 = '1') && c2.isDigit then
      some (digitVal c1 * 10 + digitVal c2, rest)
    else if c1.isDigit then some (digitVal c1, c2 :: rest)
    else none
  | [c] => if c.isDigit then some (digitVal c, []) else none
  | [] => none

/-- Format directive `%M`: `[0-5]\d|\d`. -/
def matchMinute : List Char → Option (Nat × List Char)
  | c1 :: c2 :: rest =>
    if ('0' ≤ c1 && c1 ≤ '5') && c2.isDigit then
      some (digitVal c1 * 10 + digitVal c2, rest)
    else if c1.isDigit then some (digitVal c1, c2 :: rest)
    else none
  | [c] => if c.isDigit then some (digitVal c, []) else none
  | [] => none

/-- Gregorian leap year, as `datetime.date` uses. -/
def isLeap (y : Nat) : Bool := (y % 4 = 0 && y % 100 ≠ 0) || y % 400 = 0

/-- Days in a month, as `datetime.date` validates. -/
def daysInMonth (m y : Nat) : Nat :=
  if m = 2 then (if isLeap y then 29 else 28)
  else if m = 4 || m = 6 || m = 9 || m = 11 then 30
  else 31

/-- The five components `parseCSVLine` reads off the parsed `struct_time`. -/
structure DateTimeParts where
  year : Nat
  month : Nat
  day : Nat
  hour : Nat
  minute : Nat
deriving DecidableEq, Repr

/-- Model of `time.strptime(s, "%m/%d/%Y %H:%M")`, `none` on `ValueError`. -/
def strptimeMDYHM (s : String) : Option DateTimeParts :=
  match matchMonth s.toList with
  | none => none
  | some (m, r1) =>
    match r1 with
    | '/' :: r2 =>
      match matchDay r2 with
      | none => none
      | some (d, r3) =>
        match r3 with
        | '/' :: a :: b :: c :: e :: r5 =>
          if a.isDigit && b.isDigit && c.isDigit && e.isDigit then
            let y := ((digitVal a * 10 + digitVal b) * 10 + digitVal c) * 10 + digitVal e
            let ws := r5.takeWhile isSpaceChar
            if ws.length > 0 then
              let r6 := r5.drop ws.length
              match matchHour r6 with
              | none => none
              | some (h, r7) =>
                match r7 with
                | ':' :: r8 =>
                  match matchMinute r8 with
                  | none => none
                  | some (mi, r9) =>
                    if r9 = [] && 1 ≤ y && d ≤ daysInMonth m y then
                      some ⟨y, m, d, h, mi⟩
                    else none
                | _ => none
            else none
          else none
        | _ => none
    | _ => none

/-! ## Header regex matcher

Hand-compilation of the single `re.match` of `parseCSVLine` (lines 182–185):

`^(?P<ref>(?:.+) (?P<month>\D{3}) (?P<year>\d{2})(?: .+)?)`
`[\r\n]+FM (?P<fromlist>[\w\s]+)[\r\n]+TO (?P<tolist>[\w\s]+?)`
`(?:(?:[\r\n]+INFO) (?P<infolist>[\w\s]+))?$`

Every `+` in the pattern sits over a character class, so a candidate match of
that piece is a prefix run of the class; `plusCands` enumerates the candidate
lengths in Python's trial order (greedy descending / lazy ascending) and the
match cascade tries them with `List.findSome?`, which reproduces the regex
engine's backtracking order exactly.  `$` without MULTILINE matches at the end
of the string or just before one final line feed. -/

/-- Candidate lengths, in trial order, for `X+` (greedy) or `X+?` (lazy) over
the character class `p` at the head of `l`: every length from 1 to the maximal
run, descending when greedy, ascending when lazy. -/
def plusCands (greedy : Bool) (p : Char → Bool) (l : List Char) : List Nat :=
  let n := (l.takeWhile p).length
  if greedy then (List.range n).map (fun i => n - i)
  else (List.range n).map (· + 1)

/-- Literal match at the head of `l`. -/
def isLit (lit : String) (l : List Char) : Bool :=
  lit.toList.isPrefixOf l

/-- Python `$` (no MULTILINE): end of input, or one final line feed left. -/
def atDollar (l : List Char) : Bool :=
  l = [] || l = ['\n']

/-- The named groups of the header regex.  `fromlist` and `tolist` sit in
mandatory parts of the pattern, so they are plain strings; `infolist` belongs
to the optional trailing group. -/
structure HeaderGroups where
  ref : String
  month : String
  year : String
  fromlist : String
  tolist : String
  infolist : Option String
deriving DecidableEq, Repr

/-- The part of the header pattern after the `ref` group:
`[\r\n]+FM (?P<fromlist>[\w\s]+)[\r\n]+TO (?P<tolist>[\w\s]+?)`
`(?:(?:[\r\n]+INFO) (?P<infolist>[\w\s]+))?$`, starting at offset `pos` of
`s`, with the already-captured `ref`, `month`, `year` groups passed through. -/
def headerTail (s : List Char) (pos : Nat) (ref month year : String) :
    Option HeaderGroups :=
  (plusCands true isCRLF (s.drop pos)).findSome? fun nl1 =>
    let p1 := pos + nl1
    if isLit "FM " (s.drop p1) then
      let pF := p1 + 3
      (plusCands true isWordOrSpace (s.drop pF)).findSome? fun fl =>
        let fromlist := String.mk ((s.drop pF).take fl)
        let p2 := pF + fl
        (plusCands true isCRLF (s.drop p2)).findSome? fun nl2 =>
          let p3 := p2 + nl2
          if isLit "TO " (s.drop p3) then
            let pT := p3 + 3
            (plusCands false isWordOrSpace (s.drop pT)).findSome? fun tl =>
              let tolist := String.mk ((s.drop pT).take tl)
              let p4 := pT + tl
              let withInfo : Option HeaderGroups :=
                (plusCands true isCRLF (s.drop p4)).findSome? fun nl3 =>
                  let p5 := p4 + nl3
                  if isLit "INFO " (s.drop p5) then
                    let pI := p5 + 5
                    (plusCands true isWordOrSpace (s.drop pI)).findSome? fun il =>
                      let infolist := String.mk ((s.drop pI).take il)
                      let p6 := pI + il
                      if atDollar (s.drop p6) then
                        some ⟨ref, month, year, fromlist, tolist, some infolist⟩
                      else none
                  else none
              withInfo <|>
                (if atDollar (s.drop p4) then
                  some ⟨ref, month, year, fromlist, tolist, none⟩
                 else none)
          else none
    else none

/-- The full header match: the leading
`^(?P<ref>(?:.+) (?P<month>\D{3}) (?P<year>\d{2})(?: .+)?)` part, then
`headerTail`.  The `ref` group always starts at offset 0 and extends through
the optional `(?: .+)?` piece. -/
def headerMatch (s : List Char) : Option HeaderGroups :=
  (plusCands true isDotChar s).findSome? fun d1 =>
    if isLit " " (s.drop d1) then
      let pM := d1 + 1
      let mchars := (s.drop pM).take 3
      if mchars.length = 3 && mchars.all (fun c => !c.isDigit) &&
          isLit " " (s.drop (pM + 3)) then
        let pY := pM + 4
        let ychars := (s.drop pY).take 2
        if ychars.length = 2 && ychars.all Char.isDigit then
          let pA := pY + 2
          let optCands : List Nat :=
            (if isLit " " (s.drop pA) then
              (plusCands true isDotChar (s.drop (pA + 1))).map (· + 1)
             else []) ++ [0]
          optCands.findSome? fun ext =>
            let refEnd := pA + ext
            headerTail s refEnd (String.mk (s.take refEnd))
              (String.mk mchars) (String.mk ychars)
        else none
      else none
    else none

/-! ## Content field extractor (`parseCableMessageText`)

The body blob is split on line feeds and scanned by four per-line patterns in
sequence, with a cursor that advances past a hit and resets to line 0 on a
miss (a faithful rendering of the Python iterator: `break` on a hit leaves
the iterator one past the matched line; exhaustion on a miss is followed by
`lineIterator = iter(cableLines)`). -/

/-- Regex `^(?P<eoline>E\.\s?O\. (?:.+))` (line 70): group = `E.` + optional whitespace +
`O. ` + the greedy non-empty run of non-linefeed characters. -/
def matchEO (line : String) : Option String :=
  let tailAt (l : List Char) (pre : List Char) : Option String :=
    match l with
    | 'O' :: '.' :: ' ' :: t =>
      let dots := t.takeWhile isDotChar
      if dots.length > 0 then
        some (String.mk (pre ++ 'O' :: '.' :: ' ' :: dots))
      else none
    | _ => none
  match line.toList with
  | 'E' :: '.' :: rest =>
    match rest with
    | c :: rest2 =>
      if isSpaceChar c then
        match tailAt rest2 ['E', '.', c] with
        | some g => some g
        | none => tailAt rest ['E', '.']
      else tailAt rest ['E', '.']
    | [] => none
  | _ => none

/-- Regex `^TAGS: (?P<tagslist>.+)` (line 88): group = the greedy non-empty run of
non-linefeed characters after the literal. -/
def matchTags (line : String) : Option String :=
  if isLit "TAGS: " line.toList then
    let dots := (line.toList.drop 6).takeWhile isDotChar
    if dots.length > 0 then some (String.mk dots) else none
  else none

/-- Regex `^(?:SUBJECT:|SUBJ:) (?P<subject>.+)` (line 110). -/
def matchSubject (line : String) : Option String :=
  let after (n : Nat) : Option String :=
    let dots := (line.toList.drop n).takeWhile isDotChar
    if dots.length > 0 then some (String.mk dots) else none
  if isLit "SUBJECT: " line.toList then after 9
  else if isLit "SUBJ: " line.toList then after 6
  else none

/-- Regex `^(?:REF:) (?P<ref>.+)` (line 127). -/
def matchRef (line : String) : Option String :=
  if isLit "REF: " line.toList then
    let dots := (line.toList.drop 5).takeWhile isDotChar
    if dots.length > 0 then some (String.mk dots) else none
  else none

/-- Maximal run of word characters at the head, with the remainder. -/
def wordRun : List Char → List Char × List Char
  | [] => ([], [])
  | c :: rest =>
    if isWordChar c then
      let (r, t) := wordRun rest
      (c :: r, t)
    else ([], c :: rest)

theorem wordRun_snd_length (l : List Char) : (wordRun l).2.length ≤ l.length := by
  induction l with
  | nil => simp [wordRun]
  | cons c rest ih =>
    simp only [wordRun]
    split
    · exact le_trans ih (Nat.le_succ _)
    · simp

/-- One scan step of `re.findall("(\w+)(?:,\s|$)", s)`: at each position try
`\w+` (greedy, whole run — shrinking it can never help since the next
character would still be a word character) followed by `,` + whitespace, or
by `$` (end of string / just before one final line feed); on a hit continue
after the consumed text, on a miss advance one character.  `fuel` bounds the
recursion; `tagsScan` supplies the input length, which always suffices. -/
def tagsScanF : Nat → List Char → List String
  | 0, _ => []
  | _, [] => []
  | fuel + 1, c :: rest =>
    if isWordChar c then
      let (r, t) := wordRun rest
      match t with
      | ',' :: d :: rest2 =>
        if isSpaceChar d then String.mk (c :: r) :: tagsScanF fuel rest2
        else tagsScanF fuel rest
      | [] => [String.mk (c :: r)]
      | ['\n'] => [String.mk (c :: r)]
      | _ => tagsScanF fuel rest
    else tagsScanF fuel rest

/-- Model of `re.findall("(\w+)(?:,\s|$)", s)` (line 91 of the source). -/
def tagsScan (l : List Char) : List String := tagsScanF l.length l

/-- The `tags` element: a `count` attribute and the `tag` children. -/
structure TagsBlock where
  count : Nat
  entries : List String
deriving DecidableEq, Repr

/-- Scan the line list from index `start` for the first line on which the
extractor fires, returning the extracted group and the line's index. -/
def findFromAux (f : String → Option α) : List String → Nat → Option (α × Nat)
  | [], _ => none
  | l :: ls, i =>
    match f l with
    | some a => some (a, i)
    | none => findFromAux f ls (i + 1)

/-- Forward scan from cursor position `start`. -/
def findFrom (f : String → Option α) (lines : List String) (start : Nat) :
    Option (α × Nat) :=
  findFromAux f (lines.drop start) start

/-- Warnings the core prints, in emission order.  The `REF:` scan of
`parseCableMessageText` has no warning in the source, so no constructor
exists for it. -/
inductive Warning where
  | timestampFormat
  | headerFormat
  | contentEOMissing
  | contentTagsMissing
  | contentSubjectMissing
deriving DecidableEq, Repr

/-- The `content` element of a cable.  The four optional fields are present
exactly when their scan fired; `fullText` is always present. -/
structure ContentBlock where
  eoline : Option String
  tags : Option TagsBlock
  subject : Option String
  ref : Option String
  fullText : String
deriving DecidableEq, Repr

/-- Model of `XMLCablesDocument.parseCableMessageText` (lines 57–135): the content
block plus the warnings it prints. -/
def parseCableMessageText (contentText : String) : ContentBlock × List Warning :=
  let cableLines := (pySplit '\n' contentText.toList).map String.mk
  let eoRes := findFrom matchEO cableLines 0
  let eoline := eoRes.map (fun p => pyStrip p.1)
  let cur1 := match eoRes with | some (_, i) => i + 1 | none => 0
  let w1 : List Warning := if eoRes.isNone then [.contentEOMissing] else []
  let tagsRes := findFrom matchTags cableLines cur1
  let tags := tagsRes.map fun p =>
    let tl := tagsScan (pyStrip p.1).toList
    TagsBlock.mk tl.length tl
  let cur2 := match tagsRes with | some (_, i) => i + 1 | none => 0
  let w2 : List Warning := if tagsRes.isNone then [.contentTagsMissing] else []
  let subjRes := findFrom matchSubject cableLines cur2
  let subject := subjRes.map (fun p => pyStrip p.1)
  let cur3 := match subjRes with | some (_, i) => i + 1 | none => 0
  let w3 : List Warning := if subjRes.isNone then [.contentSubjectMissing] else []
  let refRes := findFrom matchRef cableLines cur3
  let ref := refRes.map (fun p => pyStrip p.1)
  (⟨eoline, tags, subject, ref, pyReprStr (pyStrip contentText)⟩, w1 ++ w2 ++ w3)

/-! ## Record parser (`parseCSVLine`) -/

/-- The `sources` element: `count` attribute and `source` children. -/
structure SourcesBlock where
  count : Nat
  entries : List String
deriving DecidableEq, Repr

/-- Lines 167–177: empty field gives count 0 and no children, otherwise a
split on `|` with the pieces emitted verbatim. -/
def parseSources (s : String) : SourcesBlock :=
  if s = "" then ⟨0, []⟩
  else
    let sourcesText := pySplitStr '|' s
    ⟨sourcesText.length, sourcesText⟩

/-- One institution-list element of the header (`from` / `to` / `info`):
`count` attribute and `institution` children. -/
structure InstBlock where
  count : Nat
  entries : List String
deriving DecidableEq, Repr

/-- The group-to-element step the source repeats for `fromlist`, `tolist`
and `infolist` (lines 197–235): an unmatched group gives count 0 and no
children; a matched group is stripped, split on `\n` for the count, and each
piece is stripped again when emitted. -/
def mkInstBlock (grp : Option String) : InstBlock :=
  match grp with
  | none => ⟨0, []⟩
  | some t =>
    let pieces := pySplitStr '\n' (pyStrip t)
    ⟨pieces.length, pieces.map pyStrip⟩

/-- The populated `header` element (match succeeded): `ref` is stripped,
`month` and `year` are the raw captures (lines 191–193). -/
structure HeaderBlock where
  ref : String
  month : String
  year : String
  fromB : InstBlock
  toB : InstBlock
  infoB : InstBlock
deriving DecidableEq, Repr

/-- Lines 188–235 given a successful match. -/
def buildHeader (g : HeaderGroups) : HeaderBlock :=
  { ref := pyStrip g.ref
    month := g.month
    year := g.year
    fromB := mkInstBlock (some g.fromlist)
    toB := mkInstBlock (some g.tolist)
    infoB := mkInstBlock g.infolist }

/-- The `header` element.  The source creates the element before attempting
the match (line 180), so a failed match leaves an *empty* header element in
the tree rather than none at all. -/
inductive HeaderNode where
  | empty
  | full (hb : HeaderBlock)
deriving DecidableEq, Repr

/-- One `cable` element. -/
structure Cable where
  idInSource : String
  datetime : Option DateTimeParts
  reference : String
  origin : String
  classification : String
  sources : SourcesBlock
  header : HeaderNode
  content : ContentBlock
deriving DecidableEq, Repr

/-- Model of `XMLCablesDocument.parseCSVLine` (lines 140–246) on one tokenized record
(indices 0–7; the caller guarantees eight fields): the cable appended to the
document plus the warnings printed, in order. -/
def parseCSVLine (r : List String) : Cable × List Warning :=
  let dt := strptimeMDYHM (r.getD 1 "")
  let wDT : List Warning := if dt.isNone then [.timestampFormat] else []
  let sources := parseSources (r.getD 5 "")
  let hm := headerMatch (r.getD 6 "").toList
  let header : HeaderNode := match hm with
    | some g => .full (buildHeader g)
    | none => .empty
  let wH : List Warning := if hm.isNone then [.headerFormat] else []
  let pc := parseCableMessageText (r.getD 7 "")
  (⟨r.getD 0 "", dt, r.getD 2 "", r.getD 3 "", r.getD 4 "", sources, header, pc.1⟩,
   wDT ++ wH ++ pc.2)

/-! ## File parser (`parseCSVFile`) -/

/-- The two `ERROR:` outcomes of `parseCSVFile`. -/
inductive FileError where
  | emptyFile
  | malformedRecordCount
deriving DecidableEq, Repr

/-- The record loop (lines 262–268): each 8-field record yields a cable; a
record with any other field count stops the file with one
`malformedRecordCount`, discarding it and everything after it. -/
def parseRecords : List (List String) → List Cable × Option FileError
  | [] => ([], none)
  | r :: rs =>
    if r.length = 8 then
      let (cs, e) := parseRecords rs
      ((parseCSVLine r).1 :: cs, e)
    else ([], some .malformedRecordCount)

/-- Model of `XMLCablesDocument.parseCSVFile` (lines 250–268) on the tokenized rows:
an empty file is one error; otherwise the first row is consumed by
`next(csvreader)` unconditionally and the rest feed the record loop. -/
def parseCSVFile : List (List String) → List Cable × Option FileError
  | [] => ([], some .emptyFile)
  | _ :: rows => parseRecords rows

/-! ## Helper lemmas -/

/-- Every warning `parseCableMessageText` can print is one of the three
content warnings of the source: the `REF:` scan prints nothing. -/
theorem content_warning_mem (t : String) :
    ∀ w ∈ (parseCableMessageText t).2,
      w = Warning.contentEOMissing ∨ w = Warning.contentTagsMissing ∨
        w = Warning.contentSubjectMissing := by
  intro w hw
  unfold parseCableMessageText at hw
  simp only [List.mem_append] at hw
  rcases hw with (hw | hw) | hw
  · left
    revert hw
    split <;> simp_all
  · right; left
    revert hw
    split <;> simp_all
  · right; right
    revert hw
    split <;> simp_all

/-- Characterization of the record loop: the cables of the longest prefix of
8-field records, with a `malformedRecordCount` signal exactly when some
record is not 8 fields wide. -/
theorem parseRecords_characterization (recs : List (List String)) :
    parseRecords recs =
      ((recs.takeWhile (fun r => r.length == 8)).map (fun r => (parseCSVLine r).1),
       if recs.all (fun r => r.length == 8) then none
       else some FileError.malformedRecordCount) := by
  induction recs with
  | nil => simp [parseRecords]
  | cons r rs ih =>
    by_cases h : r.length = 8
    · simp [parseRecords, h, ih, List.takeWhile_cons, List.all_cons]
    · simp [parseRecords, h, List.takeWhile_cons, List.all_cons]

/-! ## Claim theorems -/

/-- C1, counterexample.  On the content blob whose lines are
`["SUBJECT: Hello", "TAGS: a, b"]` the claim asserts the output contains both
the tags and the subject.  In the code the TAGS hit at position 1 leaves the
iterator past position 1, so the SUBJECT scan starts on an exhausted iterator
and records SUBJECT absent (the cursor reset happens only *after* the miss):
the tags are extracted but the subject is not. -/
theorem c1_reset_law_counterexample :
    (parseCableMessageText "SUBJECT: Hello\nTAGS: a, b").1.tags =
      some ⟨2, ["a", "b"]⟩ ∧
    (parseCableMessageText "SUBJECT: Hello\nTAGS: a, b").1.subject = none := by
  decide

/-- C1, amended.  On lines `["SUBJECT: Hello", "TAGS: a, b"]` the extractor
records E.O. absent (with a warning and a cursor reset to the start), finds
TAGS at position 1, then scans for SUBJECT only *after* position 1 and so
records SUBJECT absent as well (with a warning and a reset); REF is likewise
absent.  The output contains the tags `a`, `b` but no subject; the fields
that are present appear in target-field order (the `content` structure
fields are in target order by construction). -/
theorem c1_content_reset :
    parseCableMessageText "SUBJECT: Hello\nTAGS: a, b" =
      (⟨none, some ⟨2, ["a", "b"]⟩, none, none,
        "\x27SUBJECT: Hello\\nTAGS: a, b\x27"⟩,
       [Warning.contentEOMissing, Warning.contentSubjectMissing]) := by
  decide

/-- C5.  In a file whose records after the consumed first row are four
8-field records followed by a 7-field record, the parse yields exactly the
four cables of the first four records together with one
`malformedRecordCount` signal; nothing after the malformed record is
processed (the result does not depend on `r5`'s contents or on `rest`). -/
theorem c5_malformed_fifth (hdr r1 r2 r3 r4 r5 : List String)
    (rest : List (List String)) (h1 : r1.length = 8) (h2 : r2.length = 8)
    (h3 : r3.length = 8) (h4 : r4.length = 8) (h5 : r5.length = 7) :
    parseCSVFile (hdr :: r1 :: r2 :: r3 :: r4 :: r5 :: rest) =
      ([(parseCSVLine r1).1, (parseCSVLine r2).1, (parseCSVLine r3).1,
        (parseCSVLine r4).1],
       some FileError.malformedRecordCount) := by
  simp [parseCSVFile, parseRecords, h1, h2, h3, h4, h5]

/-- C5, witness at a concrete file. -/
theorem c5_malformed_fifth_witness :
    parseCSVFile
      [["head"],
       ["1", "b", "c", "d", "e", "f", "g", "h"],
       ["2", "b", "c", "d", "e", "f", "g", "h"],
       ["3", "b", "c", "d", "e", "f", "g", "h"],
       ["4", "b", "c", "d", "e", "f", "g", "h"],
       ["5", "b", "c", "d", "e", "f", "g"]] =
      ([(parseCSVLine ["1", "b", "c", "d", "e", "f", "g", "h"]).1,
        (parseCSVLine ["2", "b", "c", "d", "e", "f", "g", "h"]).1,
        (parseCSVLine ["3", "b", "c", "d", "e", "f", "g", "h"]).1,
        (parseCSVLine ["4", "b", "c", "d", "e", "f", "g", "h"]).1],
       some FileError.malformedRecordCount) :=
  c5_malformed_fifth ["head"]
    ["1", "b", "c", "d", "e", "f", "g", "h"]
    ["2", "b", "c", "d", "e", "f", "g", "h"]
    ["3", "b", "c", "d", "e", "f", "g", "h"]
    ["4", "b", "c", "d", "e", "f", "g", "h"]
    ["5", "b", "c", "d", "e", "f", "g"] []
    (by decide) (by decide) (by decide) (by decide) (by decide)

/-- C6.  The sources field: empty gives count 0 with no children;
`"A|B|C"` gives count 3 with children `A`, `B`, `C` in order; in general a
non-empty field is split on `|` with the pieces emitted verbatim in order,
the recorded count always equals the number of children, and the cable's
sources block is exactly this parse of field 5. -/
theorem c6_sources (s f0 f1 f2 f3 f4 f5 f6 f7 : String) (hs : s ≠ "") :
    parseSources "" = ⟨0, []⟩ ∧
    parseSources "A|B|C" = ⟨3, ["A", "B", "C"]⟩ ∧
    parseSources s = ⟨(pySplitStr '|' s).length, pySplitStr '|' s⟩ ∧
    (∀ u : String, (parseSources u).count = (parseSources u).entries.length) ∧
    (parseCSVLine [f0, f1, f2, f3, f4, f5, f6, f7]).1.sources = parseSources f5 := by
  refine ⟨by decide, by decide, by simp [parseSources, hs], ?_, ?_⟩
  · intro u
    unfold parseSources
    split <;> simp
  · simp [parseCSVLine]

/-- C6, witness at a concrete non-empty sources field. -/
theorem c6_sources_witness :
    parseSources "X|Y" = ⟨(pySplitStr '|' "X|Y").length, pySplitStr '|' "X|Y"⟩ :=
  (c6_sources "X|Y" "" "" "" "" "" "" "" "" (by decide)).2.2.1

/-- C7.  Identity law: on every 8-field record the cable's `idInSource`,
`reference`, `origin` and `classification` are fields 0, 2, 3, 4 (1-based:
1, 3, 4, 5) copied verbatim, with no transformation. -/
theorem c7_identity (f0 f1 f2 f3 f4 f5 f6 f7 : String) :
    (parseCSVLine [f0, f1, f2, f3, f4, f5, f6, f7]).1.idInSource = f0 ∧
    (parseCSVLine [f0, f1, f2, f3, f4, f5, f6, f7]).1.reference = f2 ∧
    (parseCSVLine [f0, f1, f2, f3, f4, f5, f6, f7]).1.origin = f3 ∧
    (parseCSVLine [f0, f1, f2, f3, f4, f5, f6, f7]).1.classification = f4 := by
  simp [parseCSVLine]

/-- C9.  Totality and graceful degradation: on *every* tokenized input
(any list of rows of arbitrary strings, including no rows at all) the parse
operation is a total function whose value is completely characterized: an
empty file yields no cables and the empty-file error; otherwise the cables
are exactly the per-record parses of the longest prefix of 8-field records
after the consumed first row, with a `malformedRecordCount` signal exactly
when a record of another width cut the file short.  Every failure inside a
record is already absorbed by `parseCSVLine` (absent datetime, empty header
element, absent content fields), so no failure escapes the core. -/
theorem c9_totality (rows : List (List String)) :
    parseCSVFile rows =
      match rows with
      | [] => ([], some FileError.emptyFile)
      | _ :: recs =>
        ((recs.takeWhile (fun r => r.length == 8)).map (fun r => (parseCSVLine r).1),
         if recs.all (fun r => r.length == 8) then none
         else some FileError.malformedRecordCount) := by
  cases rows with
  | nil => rfl
  | cons r recs =>
    simpa [parseCSVFile] using parseRecords_characterization recs

/-- C10.  The first row of every input file is consumed unconditionally
before record parsing begins: the parse of `first :: rows` never looks at
`first`; a file holding only that one row yields an empty document with no
error; and the empty-file error is signaled exactly when the file has zero
rows. -/
theorem c10_first_row_skipped :
    (∀ (first : List String) (rows : List (List String)),
      parseCSVFile (first :: rows) = parseRecords rows) ∧
    (∀ first : List String, parseCSVFile [first] = ([], none)) ∧
    parseCSVFile [] = ([], some FileError.emptyFile) ∧
    (∀ rows : List (List String),
      (parseCSVFile rows).2 = some FileError.emptyFile ↔ rows = []) := by
  refine ⟨fun first rows => rfl, fun first => rfl, rfl, fun rows => ?_⟩
  cases rows with
  | nil => simp [parseCSVFile]
  | cons r recs =>
    simp only [parseCSVFile]
    rw [parseRecords_characterization]
    constructor
    · intro h
      split at h <;> simp_all
    · intro h
      exact absurd h (List.cons_ne_nil r recs)

/-- C2, counterexample.  The source creates the `header` subelement before
attempting the match (line 180), so on a record whose header blob lacks the
TO line the output tree still contains a header element — empty, with no
children — contradicting the claim that no header element or placeholder
appears. -/
theorem c2_header_counterexample :
    (parseCSVLine ["1", "12/28/1966 18:48", "66BUENOSAIRES2481", "Embassy",
        "UNCLASSIFIED", "A|B", "R 220927Z AUG 72\nFM AMEMBASSY TEHRAN",
        "SUBJECT: Hi"]).1.header = HeaderNode.empty := by
  decide

/-- C2, amended.  On every record whose header field does not match the full
header pattern, the header element is emitted *empty* — present in the tree
but with no children, so no partial capture of any header group — a
`headerFormat` warning is signaled, and every other cable field is exactly
what it would be from its own input field. -/
theorem c2_header_failure (f0 f1 f2 f3 f4 f5 f6 f7 : String)
    (h : headerMatch f6.toList = none) :
    (parseCSVLine [f0, f1, f2, f3, f4, f5, f6, f7]).1.header = HeaderNode.empty ∧
    Warning.headerFormat ∈ (parseCSVLine [f0, f1, f2, f3, f4, f5, f6, f7]).2 ∧
    (parseCSVLine [f0, f1, f2, f3, f4, f5, f6, f7]).1.idInSource = f0 ∧
    (parseCSVLine [f0, f1, f2, f3, f4, f5, f6, f7]).1.datetime = strptimeMDYHM f1 ∧
    (parseCSVLine [f0, f1, f2, f3, f4, f5, f6, f7]).1.reference = f2 ∧
    (parseCSVLine [f0, f1, f2, f3, f4, f5, f6, f7]).1.origin = f3 ∧
    (parseCSVLine [f0, f1, f2, f3, f4, f5, f6, f7]).1.classification = f4 ∧
    (parseCSVLine [f0, f1, f2, f3, f4, f5, f6, f7]).1.sources = parseSources f5 ∧
    (parseCSVLine [f0, f1, f2, f3, f4, f5, f6, f7]).1.content =
      (parseCableMessageText f7).1 := by
  simp only [String.toList] at h
  simp [parseCSVLine, h]

/-- C2, witness at a concrete record whose header blob is missing the TO
line. -/
theorem c2_header_failure_witness :
    (parseCSVLine ["7", "12/28/1966 18:48", "66BUENOSAIRES2481", "Embassy",
        "UNCLASSIFIED", "", "R 220927Z AUG 72\nFM AMEMBASSY TEHRAN",
        "TAGS: a"]).1.header = HeaderNode.empty ∧
    Warning.headerFormat ∈
      (parseCSVLine ["7", "12/28/1966 18:48", "66BUENOSAIRES2481", "Embassy",
        "UNCLASSIFIED", "", "R 220927Z AUG 72\nFM AMEMBASSY TEHRAN",
        "TAGS: a"]).2 :=
  ⟨(c2_header_failure "7" "12/28/1966 18:48" "66BUENOSAIRES2481" "Embassy"
      "UNCLASSIFIED" "" "R 220927Z AUG 72\nFM AMEMBASSY TEHRAN" "TAGS: a"
      (by decide)).1,
   (c2_header_failure "7" "12/28/1966 18:48" "66BUENOSAIRES2481" "Embassy"
      "UNCLASSIFIED" "" "R 220927Z AUG 72\nFM AMEMBASSY TEHRAN" "TAGS: a"
      (by decide)).2.1⟩

/-- C4.  The timestamp field `"12/28/1966 18:48"` parses to year 1966,
month 12, day 28, hour 18, minute 48, and the cable carries all five
components; on any record whose timestamp field does not parse in the fixed
format (e.g. `"not-a-date"`), the cable's datetime is entirely absent, the
timestamp warning is signaled exactly once — at a concrete otherwise-valid
record it is the only warning — and every other cable field is still
populated from its own input field (the record is not aborted). -/
theorem c4_timestamp (t f0 f2 f3 f4 f5 f6 f7 : String)
    (h : strptimeMDYHM t = none) :
    strptimeMDYHM "12/28/1966 18:48" = some ⟨1966, 12, 28, 18, 48⟩ ∧
    (parseCSVLine ["9", "12/28/1966 18:48", "66BUENOSAIRES2481", "Embassy",
        "UNCLASSIFIED", "A",
        "R 220927Z AUG 72\nFM AMEMBASSY TEHRAN\nTO SECSTATE WASHDC 9461\nINFO CINCPAC",
        "E. O. 11652: GDS\nTAGS: PFOR, OVIP\nSUBJECT: VISIT\nREF: STATE 173456"]).1.datetime =
      some ⟨1966, 12, 28, 18, 48⟩ ∧
    (parseCSVLine ["9", "not-a-date", "66BUENOSAIRES2481", "Embassy",
        "UNCLASSIFIED", "A",
        "R 220927Z AUG 72\nFM AMEMBASSY TEHRAN\nTO SECSTATE WASHDC 9461\nINFO CINCPAC",
        "E. O. 11652: GDS\nTAGS: PFOR, OVIP\nSUBJECT: VISIT\nREF: STATE 173456"]).1.datetime =
      none ∧
    (parseCSVLine ["9", "not-a-date", "66BUENOSAIRES2481", "Embassy",
        "UNCLASSIFIED", "A",
        "R 220927Z AUG 72\nFM AMEMBASSY TEHRAN\nTO SECSTATE WASHDC 9461\nINFO CINCPAC",
        "E. O. 11652: GDS\nTAGS: PFOR, OVIP\nSUBJECT: VISIT\nREF: STATE 173456"]).2 =
      [Warning.timestampFormat] ∧
    (parseCSVLine [f0, t, f2, f3, f4, f5, f6, f7]).1.datetime = none ∧
    (parseCSVLine [f0, t, f2, f3, f4, f5, f6, f7]).2.count Warning.timestampFormat = 1 ∧
    (parseCSVLine [f0, t, f2, f3, f4, f5, f6, f7]).1.idInSource = f0 ∧
    (parseCSVLine [f0, t, f2, f3, f4, f5, f6, f7]).1.reference = f2 ∧
    (parseCSVLine [f0, t, f2, f3, f4, f5, f6, f7]).1.origin = f3 ∧
    (parseCSVLine [f0, t, f2, f3, f4, f5, f6, f7]).1.classification = f4 ∧
    (parseCSVLine [f0, t, f2, f3, f4, f5, f6, f7]).1.sources = parseSources f5 ∧
    (parseCSVLine [f0, t, f2, f3, f4, f5, f6, f7]).1.content =
      (parseCableMessageText f7).1 := by
  have hwc : Warning.timestampFormat ∉ (parseCableMessageText f7).2 := by
    intro hmem
    rcases content_warning_mem f7 _ hmem with hx | hx | hx <;> simp at hx
  refine ⟨by decide, by decide, by decide, by decide,
    by simp [parseCSVLine, h], ?_, by simp [parseCSVLine],
    by simp [parseCSVLine], by simp [parseCSVLine], by simp [parseCSVLine],
    by simp [parseCSVLine], by simp [parseCSVLine]⟩
  simp [parseCSVLine, h, List.count_append, List.count_eq_zero.mpr hwc]
  split <;> simp

/-- C4, witness at the timestamp field `"not-a-date"`. -/
theorem c4_timestamp_witness :
    (parseCSVLine ["w", "not-a-date", "wr", "wo", "wc", "ws", "wh", "wt"]).1.datetime =
        none ∧
      (parseCSVLine ["w", "not-a-date", "wr", "wo", "wc", "ws", "wh",
          "wt"]).2.count Warning.timestampFormat = 1 :=
  ⟨(c4_timestamp "not-a-date" "w" "wr" "wo" "wc" "ws" "wh" "wt" (by decide)).2.2.2.2.1,
   (c4_timestamp "not-a-date" "w" "wr" "wo" "wc" "ws" "wh" "wt"
      (by decide)).2.2.2.2.2.1⟩

/-- C8, counterexample.  The pattern piece `\D{3}` for the month can capture
whitespace, and the source emits `m.group('month')` without stripping
(line 192): on the header blob `"A  QR 72\nFM AA\nTO BB\nINFO CC"` — a full
match with FM, TO and INFO all present — the captured month is `" QR"` and
the emitted month is `" QR"`, not the whitespace-trimmed `"QR"` the claim
requires. -/
theorem c8_month_counterexample :
    headerMatch ("A  QR 72\nFM AA\nTO BB\nINFO CC").toList =
      some ⟨"A  QR 72", " QR", "72", "AA", "BB", some "CC"⟩ ∧
    (parseCSVLine ["1", "12/28/1966 18:48", "r", "o", "c", "",
        "A  QR 72\nFM AA\nTO BB\nINFO CC", "x"]).1.header =
      HeaderNode.full ⟨"A  QR 72", " QR", "72", ⟨1, ["AA"]⟩, ⟨1, ["BB"]⟩,
        ⟨1, ["CC"]⟩⟩ ∧
    pyStrip " QR" = "QR" := by
  decide

/-- C8, amended.  On every record whose header blob matches the header
pattern, the emitted header block is built from the captured groups as
follows: `ref` is whitespace-trimmed; `month` and `year` are copied exactly
as captured (`year` is two digits so trimming would be vacuous, but `month`
can retain whitespace matched by `\D{3}`); each of the `from`/`to` lists is
the captured text stripped and split on line feeds, each element trimmed, in
original order; the `info` list is treated the same way when its group
matched and is recorded present with count 0 when it did not; and no header
warning is signaled. -/
theorem c8_header_success (f0 f1 f2 f3 f4 f5 f6 f7 : String) (g : HeaderGroups)
    (h : headerMatch f6.toList = some g) :
    (parseCSVLine [f0, f1, f2, f3, f4, f5, f6, f7]).1.header =
      HeaderNode.full (buildHeader g) ∧
    Warning.headerFormat ∉ (parseCSVLine [f0, f1, f2, f3, f4, f5, f6, f7]).2 ∧
    (buildHeader g).ref = pyStrip g.ref ∧
    (buildHeader g).month = g.month ∧
    (buildHeader g).year = g.year ∧
    (buildHeader g).fromB = ⟨(pySplitStr '\n' (pyStrip g.fromlist)).length,
      (pySplitStr '\n' (pyStrip g.fromlist)).map pyStrip⟩ ∧
    (buildHeader g).toB = ⟨(pySplitStr '\n' (pyStrip g.tolist)).length,
      (pySplitStr '\n' (pyStrip g.tolist)).map pyStrip⟩ ∧
    (∀ it, g.infolist = some it → (buildHeader g).infoB =
      ⟨(pySplitStr '\n' (pyStrip it)).length,
       (pySplitStr '\n' (pyStrip it)).map pyStrip⟩) ∧
    (g.infolist = none → (buildHeader g).infoB = ⟨0, []⟩) := by
  simp only [String.toList] at h
  have hwc : Warning.headerFormat ∉ (parseCableMessageText f7).2 := by
    intro hmem
    rcases content_warning_mem f7 _ hmem with hx | hx | hx <;> simp at hx
  refine ⟨by simp [parseCSVLine, h], ?_,
    by simp [buildHeader], by simp [buildHeader], by simp [buildHeader],
    by simp [buildHeader, mkInstBlock], by simp [buildHeader, mkInstBlock],
    ?_, ?_⟩
  · simp only [parseCSVLine, h, List.mem_append]
    intro hmem
    rcases hmem with (hmem | hmem) | hmem
    · revert hmem
      split <;> simp
    · simp [h] at hmem
    · exact hwc hmem
  · intro it hit
    simp [buildHeader, mkInstBlock, hit]
  · intro hnone
    simp [buildHeader, mkInstBlock, hnone]

/-- C8, witness at a concrete record whose header blob matches with FM, TO
and INFO all present. -/
theorem c8_header_success_witness :
    (parseCSVLine ["8", "12/28/1966 18:48", "r", "o", "c", "",
        "R 220927Z AUG 72\nFM AMEMBASSY TEHRAN\nTO SECSTATE WASHDC 9461\nINFO CINCPAC",
        "x"]).1.header =
      HeaderNode.full (buildHeader ⟨"R 220927Z AUG 72", "AUG", "72",
        "AMEMBASSY TEHRAN", "SECSTATE WASHDC 9461", some "CINCPAC"⟩) :=
  (c8_header_success "8" "12/28/1966 18:48" "r" "o" "c" ""
    "R 220927Z AUG 72\nFM AMEMBASSY TEHRAN\nTO SECSTATE WASHDC 9461\nINFO CINCPAC"
    "x" ⟨"R 220927Z AUG 72", "AUG", "72", "AMEMBASSY TEHRAN",
      "SECSTATE WASHDC 9461", some "CINCPAC"⟩ (by decide)).1

/-- C3, counterexample.  On the empty content blob all four optional content
fields are missing, yet only three warnings are signaled: the `REF:` scan of
the source (lines 126–131) prints no warning on a miss, so there is no
fourth, REF-specific warning. -/
theorem c3_ref_warning_counterexample :
    (parseCableMessageText "").1.eoline = none ∧
    (parseCableMessageText "").1.tags = none ∧
    (parseCableMessageText "").1.subject = none ∧
    (parseCableMessageText "").1.ref = none ∧
    (parseCableMessageText "").2.length = 3 := by
  decide

/-- C3, amended.  For the E.O., TAGS and SUBJECT content fields a
field-specific missing-field warning is signaled exactly when that field's
pattern is not found (and only that field is omitted); a missing `REF:`
field is omitted silently — every warning the content extractor can signal
is one of those three, so no warning exists for REF. -/
theorem c3_content_field_warnings (contentText : String) :
    ((parseCableMessageText contentText).1.eoline = none ↔
      Warning.contentEOMissing ∈ (parseCableMessageText contentText).2) ∧
    ((parseCableMessageText contentText).1.tags = none ↔
      Warning.contentTagsMissing ∈ (parseCableMessageText contentText).2) ∧
    ((parseCableMessageText contentText).1.subject = none ↔
      Warning.contentSubjectMissing ∈ (parseCableMessageText contentText).2) ∧
    (∀ w ∈ (parseCableMessageText contentText).2,
      w = Warning.contentEOMissing ∨ w = Warning.contentTagsMissing ∨
        w = Warning.contentSubjectMissing) := by
  refine ⟨?_, ?_, ?_, content_warning_mem contentText⟩
  · simp only [parseCableMessageText]
    generalize List.map String.mk (pySplit '\n' contentText.toList) = L
    rcases h1 : findFrom matchEO L 0 with _ | p1 <;> simp [h1]
  · simp only [parseCableMessageText]
    generalize List.map String.mk (pySplit '\n' contentText.toList) = L
    rcases h1 : findFrom matchEO L 0 with _ | p1 <;>
      simp only [h1, Option.isNone_none, Option.isNone_some] <;>
      [rcases h2 : findFrom matchTags L 0 with _ | p2;
       rcases h2 : findFrom matchTags L (p1.2 + 1) with _ | p2] <;>
      simp [h2]
  · simp only [parseCableMessageText]
    generalize List.map String.mk (pySplit '\n' contentText.toList) = L
    rcases h1 : findFrom matchEO L 0 with _ | p1 <;>
      simp only [h1, Option.isNone_none, Option.isNone_some] <;>
      [rcases h2 : findFrom matchTags L 0 with _ | p2;
       rcases h2 : findFrom matchTags L (p1.2 + 1) with _ | p2] <;>
      simp only [h2, Option.isNone_none, Option.isNone_some] <;>
      [rcases h3 : findFrom matchSubject L 0 with _ | p3;
       rcases h3 : findFrom matchSubject L (p2.2 + 1) with _ | p3;
       rcases h3 : findFrom matchSubject L 0 with _ | p3;
       rcases h3 : findFrom matchSubject L (p2.2 + 1) with _ | p3] <;>
      simp [h3]

/-- C3, witness at the empty content blob and the warning it does signal. -/
theorem c3_content_field_warnings_witness :
    ((parseCableMessageText "").1.eoline = none ↔
      Warning.contentEOMissing ∈ (parseCableMessageText "").2) ∧
    (Warning.contentEOMissing = Warning.contentEOMissing ∨
      Warning.contentEOMissing = Warning.contentTagsMissing ∨
        Warning.contentEOMissing = Warning.contentSubjectMissing) :=
  ⟨(c3_content_field_warnings "").1,
   (c3_content_field_warnings "").2.2.2 Warning.contentEOMissing (by decide)⟩

end CableParsing
